import Mathlib

/-!
Verification of the SPDY/3 dissector (packet-spdy.c).

A shallow embedding of the dissector core: byte-level reads, the frame
decoder and its error branches, the driver loop with desegmentation,
the SETTINGS payload check, the per-packet header-block memo, the
header-block decompression protocol, stream-scoped body reassembly and
chunk discarding, and the DATA body sub-dissector dispatch.  Buffers are
lists of bytes (Nat values reduced mod 256 on read); machine reads are
big-endian, as in the source.
-/

namespace Spdy

/-- Read one byte of a buffer; out-of-range reads give 0 (reads in the
model are always guarded by length checks first, as in the source). -/
def byteAt (buf : List Nat) (i : Nat) : Nat := buf.getD i 0 % 256

/-- Big-endian 16-bit read (tvb_get_ntohs). -/
def tvb_get_ntohs (buf : List Nat) (off : Nat) : Nat :=
  byteAt buf off * 256 + byteAt buf (off + 1)

/-- Big-endian 24-bit read (tvb_get_ntoh24). -/
def tvb_get_ntoh24 (buf : List Nat) (off : Nat) : Nat :=
  byteAt buf off * 65536 + byteAt buf (off + 1) * 256 + byteAt buf (off + 2)

/-- Big-endian 32-bit read (tvb_get_ntohl). -/
def tvb_get_ntohl (buf : List Nat) (off : Nat) : Nat :=
  byteAt buf off * 16777216 + byteAt buf (off + 1) * 65536 +
    byteAt buf (off + 2) * 256 + byteAt buf (off + 3)

/-- The desegment length constant used by the driver loop when fewer than
8 bytes remain. -/
def DESEGMENT_ONE_MORE_SEGMENT : Nat := 268435455

/-- SPDY frame type codes, as in the _spdy_type enum. -/
def SPDY_DATA : Nat := 0
def SPDY_SYN_STREAM : Nat := 1
def SPDY_SYN_REPLY : Nat := 2
def SPDY_RST_STREAM : Nat := 3
def SPDY_SETTINGS : Nat := 4
def SPDY_NOOP : Nat := 5
def SPDY_PING : Nat := 6
def SPDY_GOAWAY : Nat := 7
def SPDY_HEADERS : Nat := 8
def SPDY_WINDOW_UPDATE : Nat := 9
def SPDY_CREDENTIAL : Nat := 10
def SPDY_INVALID : Nat := 11

def MIN_SPDY_VERSION : Nat := 3

/-- Expert-info records emitted through expert_add_info_format, one
constructor per call site relevant to the modelled paths. -/
inductive ExpertInfo where
  | lengthRemainingTooSmall
  | invalidControlFrameType (t : Nat)
  | notEnoughFrameData
  | settingsTooSmallForNumEntries
  | settingsTooSmall (numEntries : Nat)
  | invalidRstStreamStatus (s : Nat)
  | unhandledFrameType (t : Nat)
  | inflationFailed
  | numHeadersGreaterThanFrameLength
deriving DecidableEq, Repr

/-- Known RST_STREAM status codes (rst_stream_status_names table). -/
def rst_stream_status_known (s : Nat) : Bool := 1 ≤ s && s ≤ 12

/-- Result of dissect_spdy_settings_payload: the returned int, the expert
infos emitted, the number of entries dissected, and the offset one past
the last byte the entry loop touched. -/
structure SettingsOutput where
  ret : Int
  experts : List ExpertInfo
  entries_dissected : Nat
  end_offset : Nat
deriving DecidableEq, Repr

/-- The entry loop of dissect_spdy_settings_payload: each iteration
advances the offset by 8 (1 flags byte, 3 id bytes, 4 value bytes). -/
def spdy_settings_entry_loop (offset : Nat) : Nat → Nat
  | 0 => offset
  | n + 1 => spdy_settings_entry_loop (offset + 8) n

/-- Model of dissect_spdy_settings_payload.  length is the declared
payload length of the frame; the payload starts at offset. -/
def dissect_spdy_settings_payload (buf : List Nat) (offset : Nat)
    (length : Nat) : SettingsOutput :=
  if length < 4 then
    ⟨-1, [.settingsTooSmallForNumEntries], 0, offset⟩
  else
    let num_entries := tvb_get_ntohl buf offset
    if length < num_entries * 8 then
      ⟨-1, [.settingsTooSmall num_entries], 0, offset⟩
    else
      ⟨(length : Int), [], num_entries,
        spdy_settings_entry_loop (offset + 4) num_entries⟩

/-- The per-packet header-block memo: entries of
(stream id, frame type, decompressed header block), in insertion order,
attached to one captured packet. -/
abbrev HeaderMemo := List (Nat × Nat × List Nat)

/-- Model of spdy_find_saved_header_block: first entry of the packet
memo matching the given stream id and frame type. -/
def spdy_find_saved_header_block (memo : HeaderMemo) (stream_id frame_type : Nat) :
    Option (List Nat) :=
  match memo with
  | [] => none
  | (s, t, blk) :: rest =>
      if s = stream_id ∧ t = frame_type then some blk
      else spdy_find_saved_header_block rest stream_id frame_type

/-- Model of spdy_save_header_block: append the decompressed block to the
packet memo keyed by (stream id, frame type) (g_slist_append). -/
def spdy_save_header_block (memo : HeaderMemo) (stream_id frame_type : Nat)
    (header : List Nat) : HeaderMemo :=
  memo ++ [(stream_id, frame_type, header)]

/-- Host configuration and collaborators the frame dissector consults:
the decompress-headers preference and the header inflater, abstracted as
a function from direction (true = rqst decompressor, false = rply) and
compressed bytes to an optional plaintext (none = inflation failure). -/
structure SpdyEnv where
  decompress_headers : Bool
  decomp : Bool → List Nat → Option (List Nat)

/-- Observable outcome of dissect_spdy_frame: the returned int, the
expert infos emitted, whether the proto item was marked
[Unsupported Version] or [Error: Header decompression failed], whether
the header inflater was invoked, whether any type-specific payload
dissection ran, and the packet memo after the call. -/
structure FrameOutput where
  ret : Int
  experts : List ExpertInfo
  unsupported_version_mark : Bool
  decompress_failed_mark : Bool
  inflater_called : Bool
  payload_parsed : Bool
  memo : HeaderMemo
deriving DecidableEq, Repr

/-- The header-block step of dissect_spdy_frame for SYN_STREAM,
SYN_REPLY and HEADERS frames (given decompression enabled): look up the
packet memo; on a miss run the inflater on the compressed block and, on
success, store the plaintext under (stream id, frame type).  Returns the
plaintext (none = inflation failed), the updated memo, and whether the
inflater was invoked. -/
def spdy_header_block_step (decomp : List Nat → Option (List Nat))
    (memo : HeaderMemo) (stream_id frame_type : Nat)
    (compressed : List Nat) : Option (List Nat) × HeaderMemo × Bool :=
  match spdy_find_saved_header_block memo stream_id frame_type with
  | some blk => (some blk, memo, false)
  | none =>
      match decomp compressed with
      | none => (none, memo, true)
      | some pt =>
          (some pt, spdy_save_header_block memo stream_id frame_type pt, true)

/-- Direction of the header inflater chosen in dissect_spdy_frame: the
rqst decompressor for odd streams carrying SYN_STREAM, the rply
decompressor otherwise (even streams, HEADERS, SYN_REPLY). -/
def spdy_decomp_is_rqst (stream_id frame_type : Nat) : Bool :=
  ¬ (stream_id % 2 = 0) && frame_type = SPDY_SYN_STREAM

/-- Model of dissect_spdy_frame: parse the 8-byte prelude at offset,
run the checks and the per-type switch, and process the header block of
header-bearing frames.  Only the observables in FrameOutput are
tracked; tree building, the info column and name/value parsing have no
bearing on the returned length. -/
def dissect_spdy_frame (env : SpdyEnv) (memo : HeaderMemo)
    (buf : List Nat) (offset : Nat) : FrameOutput :=
  if buf.length - offset < 8 then
    ⟨-1, [.lengthRemainingTooSmall], false, false, false, false, memo⟩
  else
    let control_bit := byteAt buf offset / 128
    if control_bit = 0 then
      -- DATA frame
      let frame_length := tvb_get_ntoh24 buf (offset + 5)
      if buf.length - (offset + 8) < frame_length then
        ⟨-1, [.notEnoughFrameData], false, false, false, false, memo⟩
      else
        -- dissect_spdy_data_payload returns frame_length; the source
        -- returns offset + that value, offset having been advanced past
        -- the 8-byte prelude.
        ⟨((offset + 8 + frame_length : Nat) : Int), [], false, false, false,
          true, memo⟩
    else
      let version := tvb_get_ntohs buf offset % 32768
      let frame_type := tvb_get_ntohs buf (offset + 2)
      if SPDY_INVALID ≤ frame_type then
        ⟨-1, [.invalidControlFrameType frame_type], false, false, false,
          false, memo⟩
      else
        let frame_length := tvb_get_ntoh24 buf (offset + 5)
        if buf.length - (offset + 8) < frame_length then
          ⟨-1, [.notEnoughFrameData], false, false, false, false, memo⟩
        else if version < MIN_SPDY_VERSION then
          ⟨((frame_length + 8 : Nat) : Int), [], true, false, false, false,
            memo⟩
        else if frame_type = SPDY_RST_STREAM then
          let rst_status := tvb_get_ntohl buf (offset + 8)
          let es := if rst_stream_status_known rst_status then []
                    else [ExpertInfo.invalidRstStreamStatus rst_status]
          ⟨((8 + frame_length : Nat) : Int), es, false, false, false, true,
            memo⟩
        else if frame_type = SPDY_SETTINGS then
          let so := dissect_spdy_settings_payload buf (offset + 8)
                      frame_length
          if so.ret < 0 then
            ⟨-1, so.experts, false, false, false, true, memo⟩
          else
            ⟨((8 + frame_length : Nat) : Int), so.experts, false, false,
              false, true, memo⟩
        else if frame_type = SPDY_SYN_STREAM ∨ frame_type = SPDY_SYN_REPLY ∨
                 frame_type = SPDY_HEADERS then
          let stream_id := tvb_get_ntohl buf (offset + 8) % 2147483648
          -- bytes consumed ahead of the header block: stream id (4),
          -- plus associated stream id (4) and priority/slot (2) for
          -- SYN_STREAM; the prelude itself is 8 bytes.
          let fixed : Nat := if frame_type = SPDY_SYN_STREAM then 18 else 12
          let header_block_length : Int :=
            (frame_length : Int) + 8 - (fixed : Int)
          if ¬ env.decompress_headers then
            -- num_headers is forced to 0 when not decompressing.
            ⟨((8 + frame_length : Nat) : Int), [], false, false, false, true,
              memo⟩
          else
            let compressed :=
              (buf.drop (offset + fixed)).take header_block_length.toNat
            match spdy_header_block_step
                (env.decomp (spdy_decomp_is_rqst stream_id frame_type))
                memo stream_id frame_type compressed with
            | (none, memo2, called) =>
                ⟨-1, [.inflationFailed], false, true, called, true, memo2⟩
            | (some pt, memo2, called) =>
                let num_headers := tvb_get_ntohl pt 0
                if frame_length < num_headers then
                  ⟨((frame_length + 8 : Nat) : Int),
                    [.numHeadersGreaterThanFrameLength], false, false,
                    called, true, memo2⟩
                else
                  ⟨((8 + frame_length : Nat) : Int), [], false, false,
                    called, true, memo2⟩
        else if frame_type = SPDY_NOOP ∨ frame_type = SPDY_PING ∨
                 frame_type = SPDY_GOAWAY ∨ frame_type = SPDY_WINDOW_UPDATE ∨
                 frame_type = SPDY_CREDENTIAL then
          ⟨((8 + frame_length : Nat) : Int), [], false, false, false, true,
            memo⟩
        else
          -- switch default: a control frame type with no case, i.e. a
          -- control frame whose type field reads SPDY_DATA.
          ⟨-1, [.unhandledFrameType frame_type], false, false, false, true,
            memo⟩

/-- Model of get_spdy_message_len: declared 24-bit length at offset + 5,
plus the 8-byte prelude. -/
def get_spdy_message_len (buf : List Nat) (offset : Nat) : Nat :=
  tvb_get_ntoh24 buf (offset + 5) + 8

/-- Outcome of the driver loop dissect_spdy: bytes consumed (the
returned offset), the desegment request recorded (offset, length) if
any, whether the loop stopped because a frame dissection returned a
length other than the expected one, plus the threaded packet memo and
the expert infos emitted. -/
structure SpdyResult where
  consumed : Nat
  desegment : Option (Nat × Nat)
  frame_error : Bool
  memo : HeaderMemo
  experts : List ExpertInfo
deriving DecidableEq, Repr

/-- The driver loop of dissect_spdy, fuel-indexed (the loop consumes at
least 8 bytes per iteration, so fuel = buffer length + 1 never runs
out): while bytes remain, desegment if fewer than 8 remain or the
declared frame does not fit, dissect one frame otherwise, and stop at
the current offset if the frame dissector did not consume the expected
length. -/
def dissect_spdy_loop (env : SpdyEnv) (buf : List Nat) :
    Nat → HeaderMemo → List ExpertInfo → Nat → SpdyResult
  | 0, memo, acc, offset => ⟨offset, none, false, memo, acc⟩
  | fuel + 1, memo, acc, offset =>
    let remaining := buf.length - offset
    if remaining = 0 then ⟨offset, none, false, memo, acc⟩
    else if remaining < 8 then
      ⟨offset, some (offset, DESEGMENT_ONE_MORE_SEGMENT), false, memo, acc⟩
    else
      let expected := get_spdy_message_len buf offset
      if remaining < expected then
        ⟨offset, some (offset, expected - remaining), false, memo, acc⟩
      else
        let fo := dissect_spdy_frame env memo buf offset
        if fo.ret ≠ (expected : Int) then
          ⟨offset, none, true, fo.memo, acc ++ fo.experts⟩
        else
          dissect_spdy_loop env buf fuel fo.memo (acc ++ fo.experts)
            (offset + expected)

/-- Model of dissect_spdy: run the driver loop from offset 0 on a fresh
packet memo. -/
def dissect_spdy (env : SpdyEnv) (buf : List Nat) : SpdyResult :=
  dissect_spdy_loop env buf (buf.length + 1) [] [] 0

/-- A host environment with decompression enabled and an inflater that
always fails; used to instantiate theorems at concrete inputs. -/
def envTest : SpdyEnv := ⟨true, fun _ _ => none⟩

/-! ## Per-packet header-block memoization across visits (C8 in the spec) -/

/-- One full dissection pass over the header-bearing frames of a single
captured packet, with a stateful inflater (state type Z): for each frame
(stream id, frame type, compressed block) look up the packet memo; on a
hit reuse the stored plaintext without touching the inflater; on a miss
run the inflater and, on success, store the plaintext; on an inflation
failure dissect_spdy_frame returns -1 and the driver stops the packet.
Returns the plaintext outputs in frame order, the final memo, the final
inflater state, and whether the inflater was invoked at all. -/
def spdy_visit_packet {Z : Type} (inflate : Z → Bool → List Nat → Option (List Nat) × Z) :
    HeaderMemo → Z → List (Nat × Nat × List Nat) →
    List (Option (List Nat)) × HeaderMemo × Z × Bool
  | memo, z, [] => ([], memo, z, false)
  | memo, z, (sid, ft, comp) :: rest =>
    match spdy_find_saved_header_block memo sid ft with
    | some blk =>
        let r := spdy_visit_packet inflate memo z rest
        (some blk :: r.1, r.2.1, r.2.2.1, r.2.2.2)
    | none =>
        match inflate z (spdy_decomp_is_rqst sid ft) comp with
        | (none, z1) => ([none], memo, z1, true)
        | (some pt, z1) =>
            let memo1 := spdy_save_header_block memo sid ft pt
            let r := spdy_visit_packet inflate memo1 z1 rest
            (some pt :: r.1, r.2.1, r.2.2.1, true)

/-! ## Header-block decompression protocol (spdy_decompress_header_block) -/

/-- Status of one zlib inflate call, as the source distinguishes them:
Z_OK, Z_NEED_DICT, or any other (non-OK) code. -/
inductive ZCode where
  | ok
  | needDict
  | err
deriving DecidableEq, Repr

/-- Observable outcome of one inflate call: the return code, the adler
field of the z_stream (the dictionary id the inflater expects, when the
code is needDict), the bytes written to the output buffer, and the
updated inflater state. -/
structure InflateStep (Z : Type) where
  code : ZCode
  adler : Nat
  output : List Nat
  state : Z

/-- The zlib interface the dissector uses, abstracted over the inflater
state type: a sync-flush inflate on fresh input, a retry continuing on
the pending input after a dictionary was set, and inflateSetDictionary
(true = Z_OK). -/
structure ZApi (Z : Type) where
  inflate : Z → List Nat → InflateStep Z
  inflateCont : Z → InflateStep Z
  setDictionary : Z → List Nat → Bool × Z

def spdy_dictionary : List Nat := [
  0, 0, 0, 7, 111, 112, 116, 105, 111, 110, 115, 0,
  0, 0, 4, 104, 101, 97, 100, 0, 0, 0, 4, 112,
  111, 115, 116, 0, 0, 0, 3, 112, 117, 116, 0, 0,
  0, 6, 100, 101, 108, 101, 116, 101, 0, 0, 0, 5,
  116, 114, 97, 99, 101, 0, 0, 0, 6, 97, 99, 99,
  101, 112, 116, 0, 0, 0, 14, 97, 99, 99, 101, 112,
  116, 45, 99, 104, 97, 114, 115, 101, 116, 0, 0, 0,
  15, 97, 99, 99, 101, 112, 116, 45, 101, 110, 99, 111,
  100, 105, 110, 103, 0, 0, 0, 15, 97, 99, 99, 101,
  112, 116, 45, 108, 97, 110, 103, 117, 97, 103, 101, 0,
  0, 0, 13, 97, 99, 99, 101, 112, 116, 45, 114, 97,
  110, 103, 101, 115, 0, 0, 0, 3, 97, 103, 101, 0,
  0, 0, 5, 97, 108, 108, 111, 119, 0, 0, 0, 13,
  97, 117, 116, 104, 111, 114, 105, 122, 97, 116, 105, 111,
  110, 0, 0, 0, 13, 99, 97, 99, 104, 101, 45, 99,
  111, 110, 116, 114, 111, 108, 0, 0, 0, 10, 99, 111,
  110, 110, 101, 99, 116, 105, 111, 110, 0, 0, 0, 12,
  99, 111, 110, 116, 101, 110, 116, 45, 98, 97, 115, 101,
  0, 0, 0, 16, 99, 111, 110, 116, 101, 110, 116, 45,
  101, 110, 99, 111, 100, 105, 110, 103, 0, 0, 0, 16,
  99, 111, 110, 116, 101, 110, 116, 45, 108, 97, 110, 103,
  117, 97, 103, 101, 0, 0, 0, 14, 99, 111, 110, 116,
  101, 110, 116, 45, 108, 101, 110, 103, 116, 104, 0, 0,
  0, 16, 99, 111, 110, 116, 101, 110, 116, 45, 108, 111,
  99, 97, 116, 105, 111, 110, 0, 0, 0, 11, 99, 111,
  110, 116, 101, 110, 116, 45, 109, 100, 53, 0, 0, 0,
  13, 99, 111, 110, 116, 101, 110, 116, 45, 114, 97, 110,
  103, 101, 0, 0, 0, 12, 99, 111, 110, 116, 101, 110,
  116, 45, 116, 121, 112, 101, 0, 0, 0, 4, 100, 97,
  116, 101, 0, 0, 0, 4, 101, 116, 97, 103, 0, 0,
  0, 6, 101, 120, 112, 101, 99, 116, 0, 0, 0, 7,
  101, 120, 112, 105, 114, 101, 115, 0, 0, 0, 4, 102,
  114, 111, 109, 0, 0, 0, 4, 104, 111, 115, 116, 0,
  0, 0, 8, 105, 102, 45, 109, 97, 116, 99, 104, 0,
  0, 0, 17, 105, 102, 45, 109, 111, 100, 105, 102, 105,
  101, 100, 45, 115, 105, 110, 99, 101, 0, 0, 0, 13,
  105, 102, 45, 110, 111, 110, 101, 45, 109, 97, 116, 99,
  104, 0, 0, 0, 8, 105, 102, 45, 114, 97, 110, 103,
  101, 0, 0, 0, 19, 105, 102, 45, 117, 110, 109, 111,
  100, 105, 102, 105, 101, 100, 45, 115, 105, 110, 99, 101,
  0, 0, 0, 13, 108, 97, 115, 116, 45, 109, 111, 100,
  105, 102, 105, 101, 100, 0, 0, 0, 8, 108, 111, 99,
  97, 116, 105, 111, 110, 0, 0, 0, 12, 109, 97, 120,
  45, 102, 111, 114, 119, 97, 114, 100, 115, 0, 0, 0,
  6, 112, 114, 97, 103, 109, 97, 0, 0, 0, 18, 112,
  114, 111, 120, 121, 45, 97, 117, 116, 104, 101, 110, 116,
  105, 99, 97, 116, 101, 0, 0, 0, 19, 112, 114, 111,
  120, 121, 45, 97, 117, 116, 104, 111, 114, 105, 122, 97,
  116, 105, 111, 110, 0, 0, 0, 5, 114, 97, 110, 103,
  101, 0, 0, 0, 7, 114, 101, 102, 101, 114, 101, 114,
  0, 0, 0, 11, 114, 101, 116, 114, 121, 45, 97, 102,
  116, 101, 114, 0, 0, 0, 6, 115, 101, 114, 118, 101,
  114, 0, 0, 0, 2, 116, 101, 0, 0, 0, 7, 116,
  114, 97, 105, 108, 101, 114, 0, 0, 0, 17, 116, 114,
  97, 110, 115, 102, 101, 114, 45, 101, 110, 99, 111, 100,
  105, 110, 103, 0, 0, 0, 7, 117, 112, 103, 114, 97,
  100, 101, 0, 0, 0, 10, 117, 115, 101, 114, 45, 97,
  103, 101, 110, 116, 0, 0, 0, 4, 118, 97, 114, 121,
  0, 0, 0, 3, 118, 105, 97, 0, 0, 0, 7, 119,
  97, 114, 110, 105, 110, 103, 0, 0, 0, 16, 119, 119,
  119, 45, 97, 117, 116, 104, 101, 110, 116, 105, 99, 97,
  116, 101, 0, 0, 0, 6, 109, 101, 116, 104, 111, 100,
  0, 0, 0, 3, 103, 101, 116, 0, 0, 0, 6, 115,
  116, 97, 116, 117, 115, 0, 0, 0, 6, 50, 48, 48,
  32, 79, 75, 0, 0, 0, 7, 118, 101, 114, 115, 105,
  111, 110, 0, 0, 0, 8, 72, 84, 84, 80, 47, 49,
  46, 49, 0, 0, 0, 3, 117, 114, 108, 0, 0, 0,
  6, 112, 117, 98, 108, 105, 99, 0, 0, 0, 10, 115,
  101, 116, 45, 99, 111, 111, 107, 105, 101, 0, 0, 0,
  10, 107, 101, 101, 112, 45, 97, 108, 105, 118, 101, 0,
  0, 0, 6, 111, 114, 105, 103, 105, 110, 49, 48, 48,
  49, 48, 49, 50, 48, 49, 50, 48, 50, 50, 48, 53,
  50, 48, 54, 51, 48, 48, 51, 48, 50, 51, 48, 51,
  51, 48, 52, 51, 48, 53, 51, 48, 54, 51, 48, 55,
  52, 48, 50, 52, 48, 53, 52, 48, 54, 52, 48, 55,
  52, 48, 56, 52, 48, 57, 52, 49, 48, 52, 49, 49,
  52, 49, 50, 52, 49, 51, 52, 49, 52, 52, 49, 53,
  52, 49, 54, 52, 49, 55, 53, 48, 50, 53, 48, 52,
  53, 48, 53, 50, 48, 51, 32, 78, 111, 110, 45, 65,
  117, 116, 104, 111, 114, 105, 116, 97, 116, 105, 118, 101,
  32, 73, 110, 102, 111, 114, 109, 97, 116, 105, 111, 110,
  50, 48, 52, 32, 78, 111, 32, 67, 111, 110, 116, 101,
  110, 116, 51, 48, 49, 32, 77, 111, 118, 101, 100, 32,
  80, 101, 114, 109, 97, 110, 101, 110, 116, 108, 121, 52,
  48, 48, 32, 66, 97, 100, 32, 82, 101, 113, 117, 101,
  115, 116, 52, 48, 49, 32, 85, 110, 97, 117, 116, 104,
  111, 114, 105, 122, 101, 100, 52, 48, 51, 32, 70, 111,
  114, 98, 105, 100, 100, 101, 110, 52, 48, 52, 32, 78,
  111, 116, 32, 70, 111, 117, 110, 100, 53, 48, 48, 32,
  73, 110, 116, 101, 114, 110, 97, 108, 32, 83, 101, 114,
  118, 101, 114, 32, 69, 114, 114, 111, 114, 53, 48, 49,
  32, 78, 111, 116, 32, 73, 109, 112, 108, 101, 109, 101,
  110, 116, 101, 100, 53, 48, 51, 32, 83, 101, 114, 118,
  105, 99, 101, 32, 85, 110, 97, 118, 97, 105, 108, 97,
  98, 108, 101, 74, 97, 110, 32, 70, 101, 98, 32, 77,
  97, 114, 32, 65, 112, 114, 32, 77, 97, 121, 32, 74,
  117, 110, 32, 74, 117, 108, 32, 65, 117, 103, 32, 83,
  101, 112, 116, 32, 79, 99, 116, 32, 78, 111, 118, 32,
  68, 101, 99, 32, 48, 48, 58, 48, 48, 58, 48, 48,
  32, 77, 111, 110, 44, 32, 84, 117, 101, 44, 32, 87,
  101, 100, 44, 32, 84, 104, 117, 44, 32, 70, 114, 105,
  44, 32, 83, 97, 116, 44, 32, 83, 117, 110, 44, 32,
  71, 77, 84, 99, 104, 117, 110, 107, 101, 100, 44, 116,
  101, 120, 116, 47, 104, 116, 109, 108, 44, 105, 109, 97,
  103, 101, 47, 112, 110, 103, 44, 105, 109, 97, 103, 101,
  47, 106, 112, 103, 44, 105, 109, 97, 103, 101, 47, 103,
  105, 102, 44, 97, 112, 112, 108, 105, 99, 97, 116, 105,
  111, 110, 47, 120, 109, 108, 44, 97, 112, 112, 108, 105,
  99, 97, 116, 105, 111, 110, 47, 120, 104, 116, 109, 108,
  43, 120, 109, 108, 44, 116, 101, 120, 116, 47, 112, 108,
  97, 105, 110, 44, 116, 101, 120, 116, 47, 106, 97, 118,
  97, 115, 99, 114, 105, 112, 116, 44, 112, 117, 98, 108,
  105, 99, 112, 114, 105, 118, 97, 116, 101, 109, 97, 120,
  45, 97, 103, 101, 61, 103, 122, 105, 112, 44, 100, 101,
  102, 108, 97, 116, 101, 44, 115, 100, 99, 104, 99, 104,
  97, 114, 115, 101, 116, 61, 117, 116, 102, 45, 56, 99,
  104, 97, 114, 115, 101, 116, 61, 105, 115, 111, 45, 56,
  56, 53, 57, 45, 49, 44, 117, 116, 102, 45, 44, 42,
  44, 101, 110, 113, 61, 48, 46]

/-- The adler32 checksum as zlib computes it, seeded with
adler32(0, NULL, 0) = 1. -/
def adler32 (bytes : List Nat) : Nat :=
  let s := bytes.foldl
    (fun (p : Nat × Nat) c => ((p.1 + c) % 65521, (p.2 + p.1 + c) % 65521))
    (1, 0)
  s.2 * 65536 + s.1

/-- The dictionary id cached on the conversation at creation:
the adler32 of the SPDY dictionary
(get_or_create_spdy_conversation_data). -/
def spdy_conv_dictionary_id : Nat := adler32 spdy_dictionary

/-- Model of spdy_decompress_header_block: sync-flush inflate; on
Z_NEED_DICT, if the expected adler differs from the dictionary id give
up, otherwise set the SPDY dictionary and, if that succeeded, inflate
again; any final code other than Z_OK yields NULL.  Returns the
decompressed bytes (none = NULL), the final inflater state, and whether
inflateSetDictionary was invoked. -/
def spdy_decompress_header_block {Z : Type} (api : ZApi Z) (z : Z)
    (dictionary_id : Nat) (input : List Nat) :
    Option (List Nat) × Z × Bool :=
  let s := api.inflate z input
  match s.code with
  | ZCode.ok => (some s.output, s.state, false)
  | ZCode.err => (none, s.state, false)
  | ZCode.needDict =>
      if s.adler ≠ dictionary_id then (none, s.state, false)
      else
        let sd := api.setDictionary s.state spdy_dictionary
        if sd.1 then
          let s2 := api.inflateCont sd.2
          match s2.code with
          | ZCode.ok => (some s2.output, s2.state, true)
          | _ => (none, s2.state, true)
        else (none, sd.2, true)

/-! ## Stream state, body reassembly and chunk discarding -/

/-- Model of spdy_data_frame_t: one recorded DATA chunk; data is none
once the owned buffer has been freed (null pointer). -/
structure spdy_data_frame_t where
  data : Option (List Nat)
  length : Nat
  framenum : Nat
deriving DecidableEq, Repr

/-- Model of spdy_stream_info_t. -/
structure spdy_stream_info_t where
  content_type : Option (List Nat)
  content_type_parameters : Option (List Nat)
  content_encoding : Option (List Nat)
  data_frames : List spdy_data_frame_t
  assembled_data : Option (List Nat)
  num_data_frames : Nat
deriving DecidableEq, Repr

/-- Model of spdy_add_data_chunk on a stream record that exists: append
a chunk owning the copied payload and bump num_data_frames. -/
def spdy_add_data_chunk (si : spdy_stream_info_t) (framenum : Nat)
    (data : List Nat) (length : Nat) : spdy_stream_info_t :=
  { si with
    data_frames := si.data_frames ++ [⟨some data, length, framenum⟩],
    num_data_frames := si.num_data_frames + 1 }

/-- Model of spdy_increment_data_chunk_count on a stream record that
exists. -/
def spdy_increment_data_chunk_count (si : spdy_stream_info_t) :
    spdy_stream_info_t :=
  { si with num_data_frames := si.num_data_frames + 1 }

/-- The concatenation of the chunks of a list, in list order: the
memcpy loop of spdy_assemble_data_frames copies df.length bytes of each
chunk buffer in turn. -/
def chunk_bytes (l : List spdy_data_frame_t) : List Nat :=
  (l.map (fun df => (df.data.getD []).take df.length)).flatten

/-- Model of spdy_assemble_data_frames on a stream record that exists:
if no assembled buffer is memoized yet and chunks exist, sum their
lengths and, when the total is nonzero, concatenate them (memcpy of
df.length bytes per chunk) into assembled_data. -/
def spdy_assemble_data_frames (si : spdy_stream_info_t) : spdy_stream_info_t :=
  match si.assembled_data with
  | some _ => si
  | none =>
      if si.data_frames = [] then si
      else
        let datalen := (si.data_frames.map (fun df => df.length)).sum
        if datalen ≠ 0 then
          { si with assembled_data := some (chunk_bytes si.data_frames) }
        else si

/-- Model of spdy_discard_data_frames: free each chunk owned buffer and
null its data pointer; the list itself, the per-chunk lengths and frame
numbers, num_data_frames and assembled_data are untouched.
An empty chunk list is a no-op. -/
def spdy_discard_data_frames (si : spdy_stream_info_t) : spdy_stream_info_t :=
  if si.data_frames = [] then si
  else
    { si with data_frames :=
        si.data_frames.map (fun df => { df with data := none }) }

/-- Outcome of the DATA-payload body logic: the updated stream record
(none when no stream record exists), the buffer handed onward for
content-encoding handling and sub-dissection (none when no body was
dispatched), and whether the (partial entity body) annotation was
emitted. -/
structure DataPayloadOutput where
  stream : Option spdy_stream_info_t
  body : Option (List Nat)
  partial_entity : Bool
deriving DecidableEq, Repr

/-- Model of the body logic of dissect_spdy_data_payload (the part from
the num_data_frames read up to choosing data_tvb): record the chunk on
a first visit unless the frame alone is the whole message, emit the
partial annotation and stop when FIN is clear, otherwise assemble and
pick the assembled buffer, or the payload of the current frame when
nothing was assembled. -/
def dissect_spdy_data_payload_body (stream : Option spdy_stream_info_t)
    (framenum : Nat) (payload : List Nat)
    (fin visited assemble_enabled : Bool) : DataPayloadOutput :=
  let num_data_frames := match stream with
    | none => 0
    | some si => si.num_data_frames
  if payload.length = 0 ∧ num_data_frames = 0 then ⟨stream, none, false⟩
  else
    let is_single_chunk :=
      if payload.length ≠ 0 then num_data_frames = 0 && fin
      else num_data_frames = 1
    let stream1 :=
      if payload.length ≠ 0 ∧ ¬ visited ∧ ¬ is_single_chunk then
        match stream with
        | none => none
        | some si =>
            if assemble_enabled then
              some (spdy_add_data_chunk si framenum payload payload.length)
            else
              some (spdy_increment_data_chunk_count si)
      else stream
    if ¬ fin then ⟨stream1, none, true⟩
    else
      match stream1 with
      | none => ⟨none, none, false⟩
      | some si =>
          let si2 := spdy_assemble_data_frames si
          let have_entire_body := is_single_chunk || assemble_enabled
          if ¬ have_entire_body then ⟨some si2, none, false⟩
          else
            match si2.assembled_data with
            | some d => ⟨some si2, some d, false⟩
            | none =>
                ⟨some si2, if payload.length = 0 then none else some payload,
                  false⟩

/-! ## DATA body sub-dissector dispatch -/

/-- The dissectors dissect_spdy_data_payload can hand a completed body
to: a handle found in a registry (the http.port table or the media_type
table), the generic media dissector, or the generic data dissector. -/
inductive DispatchTarget where
  | sub (h : Nat)
  | media
  | data
deriving DecidableEq, Repr

/-- Model of the sub-dissector dispatch at the end of
dissect_spdy_data_payload, for a completely assembled body
(have_entire_body holds, both registries present): pick a handle from
the port table, else from the media-type table when a content type was
recorded; call it if found; then call the generic media dissector when
nothing dissected the body and a content type was recorded, or the
generic data dissector otherwise.  Returns the dissectors invoked in
call order; accepts tells whether a called handle dissected the body. -/
def spdy_dispatch_body (port_handle : Option Nat) (media_lookup : Option Nat)
    (has_content_type : Bool) (accepts : Nat → Bool) : List DispatchTarget :=
  let handle := match port_handle with
    | some h => some h
    | none => if has_content_type then media_lookup else none
  let dissected := match handle with
    | some h => accepts h
    | none => false
  let calls := match handle with
    | some h => [DispatchTarget.sub h]
    | none => []
  if !dissected && has_content_type then calls ++ [DispatchTarget.media]
  else calls ++ [DispatchTarget.data]


end Spdy

namespace Spdy

/-- One-step unfolding of the driver loop at nonzero fuel. -/
theorem dissect_spdy_loop_succ (env : SpdyEnv) (buf : List Nat) (fuel : Nat)
    (memo : HeaderMemo) (acc : List ExpertInfo) (offset : Nat) :
    dissect_spdy_loop env buf (fuel + 1) memo acc offset =
      if buf.length - offset = 0 then ⟨offset, none, false, memo, acc⟩
      else if buf.length - offset < 8 then
        ⟨offset, some (offset, DESEGMENT_ONE_MORE_SEGMENT), false, memo, acc⟩
      else if buf.length - offset < get_spdy_message_len buf offset then
        ⟨offset, some (offset, get_spdy_message_len buf offset - (buf.length - offset)),
          false, memo, acc⟩
      else if (dissect_spdy_frame env memo buf offset).ret ≠
          ((get_spdy_message_len buf offset : Nat) : Int) then
        ⟨offset, none, true, (dissect_spdy_frame env memo buf offset).memo,
          acc ++ (dissect_spdy_frame env memo buf offset).experts⟩
      else
        dissect_spdy_loop env buf fuel (dissect_spdy_frame env memo buf offset).memo
          (acc ++ (dissect_spdy_frame env memo buf offset).experts)
          (offset + get_spdy_message_len buf offset) := rfl

/-- A control frame with a version below 3, a valid type code and its
payload fully present: mark unsupported, consume the declared length
plus 8, leave the payload and the inflater untouched. -/
theorem frame_unsupported_version (env : SpdyEnv) (memo : HeaderMemo)
    (buf : List Nat) (offset : Nat)
    (h8 : 8 ≤ buf.length - offset)
    (hcb : 128 ≤ byteAt buf offset)
    (ht : tvb_get_ntohs buf (offset + 2) < SPDY_INVALID)
    (hlen : tvb_get_ntoh24 buf (offset + 5) ≤ buf.length - (offset + 8))
    (hv : tvb_get_ntohs buf offset % 32768 < MIN_SPDY_VERSION) :
    dissect_spdy_frame env memo buf offset =
      ⟨((tvb_get_ntoh24 buf (offset + 5) + 8 : Nat) : Int), [], true, false,
        false, false, memo⟩ := by
  have hlt : byteAt buf offset < 256 := by
    unfold byteAt; omega
  have hb : ¬ (byteAt buf offset / 128 = 0) := by omega
  simp only [dissect_spdy_frame]
  rw [if_neg (by omega : ¬ (buf.length - offset < 8)),
      if_neg hb,
      if_neg (by omega : ¬ (SPDY_INVALID ≤ tvb_get_ntohs buf (offset + 2))),
      if_neg (by omega : ¬ (buf.length - (offset + 8) < tvb_get_ntoh24 buf (offset + 5))),
      if_pos hv]

/-- A SETTINGS frame (version at least 3, payload present) whose declared
length is at least 4 but smaller than 8 times its num_entries field:
the frame dissector emits the malformed expert info and returns -1. -/
theorem frame_settings_undersized (env : SpdyEnv) (memo : HeaderMemo)
    (buf : List Nat) (offset : Nat)
    (h8 : 8 ≤ buf.length - offset)
    (hcb : 128 ≤ byteAt buf offset)
    (hv : MIN_SPDY_VERSION ≤ tvb_get_ntohs buf offset % 32768)
    (htype : tvb_get_ntohs buf (offset + 2) = SPDY_SETTINGS)
    (hlen : tvb_get_ntoh24 buf (offset + 5) ≤ buf.length - (offset + 8))
    (hfl4 : 4 ≤ tvb_get_ntoh24 buf (offset + 5))
    (hund : tvb_get_ntoh24 buf (offset + 5) < tvb_get_ntohl buf (offset + 8) * 8) :
    dissect_spdy_frame env memo buf offset =
      ⟨-1, [.settingsTooSmall (tvb_get_ntohl buf (offset + 8))], false, false,
        false, true, memo⟩ := by
  have hlt : byteAt buf offset < 256 := by
    unfold byteAt; omega
  have hb : ¬ (byteAt buf offset / 128 = 0) := by omega
  simp only [dissect_spdy_frame]
  rw [if_neg (by omega : ¬ (buf.length - offset < 8)),
      if_neg hb,
      if_neg (by rw [htype]; decide : ¬ (SPDY_INVALID ≤ tvb_get_ntohs buf (offset + 2))),
      if_neg (by omega : ¬ (buf.length - (offset + 8) < tvb_get_ntoh24 buf (offset + 5))),
      if_neg (by omega : ¬ (tvb_get_ntohs buf offset % 32768 < MIN_SPDY_VERSION)),
      if_neg (by rw [htype]; decide :
        ¬ (tvb_get_ntohs buf (offset + 2) = SPDY_RST_STREAM)),
      if_pos htype]
  simp only [dissect_spdy_settings_payload]
  rw [if_neg (by omega : ¬ (tvb_get_ntoh24 buf (offset + 5) < 4)),
      if_pos hund]
  simp

/-- Driver loop invariant: with adequate fuel, the consumed count never
exceeds the buffer length, and a short count comes with a desegment
request or a frame-dissection error stop. -/
theorem dissect_spdy_loop_invariant (env : SpdyEnv) (buf : List Nat) :
    ∀ fuel offset memo acc, offset ≤ buf.length → buf.length ≤ offset + 8 * fuel →
      (dissect_spdy_loop env buf fuel memo acc offset).consumed ≤ buf.length ∧
      ((dissect_spdy_loop env buf fuel memo acc offset).consumed < buf.length →
        (dissect_spdy_loop env buf fuel memo acc offset).desegment ≠ none ∨
        (dissect_spdy_loop env buf fuel memo acc offset).frame_error = true) := by
  intro fuel
  induction fuel with
  | zero =>
      intro offset memo acc h1 h2
      refine ⟨?_, ?_⟩
      · simp only [dissect_spdy_loop]
        omega
      · simp only [dissect_spdy_loop]
        omega
  | succ n ih =>
      intro offset memo acc h1 h2
      rw [dissect_spdy_loop_succ]
      by_cases hz : buf.length - offset = 0
      · rw [if_pos hz]
        refine ⟨h1, ?_⟩
        simp
        omega
      · rw [if_neg hz]
        by_cases h8 : buf.length - offset < 8
        · rw [if_pos h8]
          exact ⟨h1, by intro _; simp⟩
        · rw [if_neg h8]
          by_cases hexp : buf.length - offset < get_spdy_message_len buf offset
          · rw [if_pos hexp]
            exact ⟨h1, by intro _; simp⟩
          · rw [if_neg hexp]
            by_cases herr : (dissect_spdy_frame env memo buf offset).ret ≠
                ((get_spdy_message_len buf offset : Nat) : Int)
            · rw [if_pos herr]
              exact ⟨h1, by intro _; simp⟩
            · rw [if_neg herr]
              have h9 : 8 ≤ get_spdy_message_len buf offset := by
                unfold get_spdy_message_len; omega
              exact ih (offset + get_spdy_message_len buf offset) _ _
                (by omega) (by omega)

/-- Claim C1 (amended): for every input buffer, the driver reports a
consumed count at most the buffer length, and whenever the consumed
count is strictly smaller, either a desegment request was recorded or
the loop stopped because a frame dissection reported a length other
than the expected one. -/
theorem claim_c1_consumed (env : SpdyEnv) (buf : List Nat) :
    (dissect_spdy env buf).consumed ≤ buf.length ∧
    ((dissect_spdy env buf).consumed < buf.length →
      (dissect_spdy env buf).desegment ≠ none ∨
      (dissect_spdy env buf).frame_error = true) :=
  dissect_spdy_loop_invariant env buf (buf.length + 1) 0 [] [] (by omega) (by omega)

/-- Witness for claim C1 at a concrete buffer holding one invalid-type
control frame: the short count comes with the error stop. -/
theorem claim_c1_witness :
    (dissect_spdy envTest [128, 3, 0, 11, 0, 0, 0, 0]).desegment ≠ none ∨
    (dissect_spdy envTest [128, 3, 0, 11, 0, 0, 0, 0]).frame_error = true :=
  (claim_c1_consumed envTest [128, 3, 0, 11, 0, 0, 0, 0]).2 (by decide)

/-- Counterexample to claim C1 as stated: on a buffer holding one control
frame of invalid type 11, the driver consumes 0 of 8 bytes yet records
no desegment request. -/
theorem claim_c1_counterexample :
    (dissect_spdy envTest [128, 3, 0, 11, 0, 0, 0, 0]).consumed <
      ([128, 3, 0, 11, 0, 0, 0, 0] : List Nat).length ∧
    (dissect_spdy envTest [128, 3, 0, 11, 0, 0, 0, 0]).desegment = none := by
  decide

end Spdy

namespace Spdy

/-- Claim C5 (amended): at a loop offset with at least one but fewer
than 8 bytes remaining, the driver records a desegment request of
DESEGMENT_ONE_MORE_SEGMENT and returns the current offset; at a loop
offset with at least 8 bytes remaining but fewer than the declared
total of the frame there, it records a desegment request of that total
minus the remaining count and returns the current offset. -/
theorem claim_c5_desegment (env : SpdyEnv) (buf : List Nat) (fuel offset : Nat)
    (memo : HeaderMemo) (acc : List ExpertInfo) :
    (0 < buf.length - offset → buf.length - offset < 8 →
      dissect_spdy_loop env buf (fuel + 1) memo acc offset =
        ⟨offset, some (offset, DESEGMENT_ONE_MORE_SEGMENT), false, memo, acc⟩) ∧
    (8 ≤ buf.length - offset →
     buf.length - offset < get_spdy_message_len buf offset →
      dissect_spdy_loop env buf (fuel + 1) memo acc offset =
        ⟨offset, some (offset, get_spdy_message_len buf offset - (buf.length - offset)),
          false, memo, acc⟩) := by
  constructor
  · intro h0 h8
    rw [dissect_spdy_loop_succ, if_neg (by omega), if_pos h8]
  · intro h8 hexp
    rw [dissect_spdy_loop_succ, if_neg (by omega), if_neg (by omega), if_pos hexp]

/-- Witness for claim C5: the first 5 bytes of a DATA frame ask for one
more segment; a DATA frame header declaring 200 payload bytes with none
present asks for the 200 missing bytes. -/
theorem claim_c5_witness :
    dissect_spdy_loop envTest [0, 0, 0, 1, 0] 1 [] [] 0 =
      ⟨0, some (0, DESEGMENT_ONE_MORE_SEGMENT), false, [], []⟩ ∧
    dissect_spdy_loop envTest [0, 0, 0, 1, 0, 0, 0, 200] 1 [] [] 0 =
      ⟨0, some (0, 200), false, [], []⟩ := by
  constructor
  · exact (claim_c5_desegment envTest [0, 0, 0, 1, 0] 0 0 [] []).1
      (by decide) (by decide)
  · have h := (claim_c5_desegment envTest [0, 0, 0, 1, 0, 0, 0, 200] 0 0 [] []).2
      (by decide) (by decide)
    simpa using h

/-- Counterexample to claim C5 as stated: on an empty buffer fewer than
8 bytes remain at the current offset, yet the driver records no
desegment request. -/
theorem claim_c5_counterexample :
    (List.length ([] : List Nat) - 0 < 8) ∧
    dissect_spdy envTest [] = ⟨0, none, false, [], []⟩ := by decide

/-- Claim C6 (amended): for every control frame whose type code is valid
and whose declared payload is fully present, a version below 3 makes the
dissector mark the frame Unsupported Version, return length + 8, and
skip both payload dissection and the header inflater. -/
theorem claim_c6_unsupported (env : SpdyEnv) (memo : HeaderMemo)
    (buf : List Nat) (offset : Nat)
    (h8 : 8 ≤ buf.length - offset)
    (hcb : 128 ≤ byteAt buf offset)
    (ht : tvb_get_ntohs buf (offset + 2) < SPDY_INVALID)
    (hlen : tvb_get_ntoh24 buf (offset + 5) ≤ buf.length - (offset + 8))
    (hv : tvb_get_ntohs buf offset % 32768 < MIN_SPDY_VERSION) :
    dissect_spdy_frame env memo buf offset =
      ⟨((tvb_get_ntoh24 buf (offset + 5) + 8 : Nat) : Int), [], true, false,
        false, false, memo⟩ :=
  frame_unsupported_version env memo buf offset h8 hcb ht hlen hv

/-- Witness for claim C6: a version-2 SYN_STREAM of declared length 20
consumes 28 bytes, is marked unsupported, and neither the payload switch
nor the inflater runs. -/
theorem claim_c6_witness :
    dissect_spdy_frame envTest [] ([128, 2, 0, 1, 0, 0, 0, 20] ++ List.replicate 20 0) 0 =
      ⟨28, [], true, false, false, false, []⟩ := by
  have h := claim_c6_unsupported envTest []
    ([128, 2, 0, 1, 0, 0, 0, 20] ++ List.replicate 20 0) 0
    (by decide) (by decide) (by decide) (by decide) (by decide)
  simpa using h

/-- Counterexample to claim C6 as stated: a control frame with version 2
and type code 11 is not marked Unsupported Version and returns -1, not
length + 8. -/
theorem claim_c6_counterexample :
    128 ≤ byteAt [128, 2, 0, 11, 0, 0, 0, 0] 0 ∧
    tvb_get_ntohs [128, 2, 0, 11, 0, 0, 0, 0] 0 % 32768 < 3 ∧
    (dissect_spdy_frame envTest [] [128, 2, 0, 11, 0, 0, 0, 0] 0).unsupported_version_mark = false ∧
    (dissect_spdy_frame envTest [] [128, 2, 0, 11, 0, 0, 0, 0] 0).ret = -1 := by
  decide

/-- Claim C3 (amended): an undersized SETTINGS frame makes the driver
emit the malformed expert info and stop at the offset of that frame:
nothing of the frame is consumed and no later frame of the buffer is
dissected. -/
theorem claim_c3_settings_halt (env : SpdyEnv) (buf : List Nat)
    (fuel offset : Nat) (memo : HeaderMemo) (acc : List ExpertInfo)
    (h8 : 8 ≤ buf.length - offset)
    (hfit : get_spdy_message_len buf offset ≤ buf.length - offset)
    (hcb : 128 ≤ byteAt buf offset)
    (hv : MIN_SPDY_VERSION ≤ tvb_get_ntohs buf offset % 32768)
    (htype : tvb_get_ntohs buf (offset + 2) = SPDY_SETTINGS)
    (hfl4 : 4 ≤ tvb_get_ntoh24 buf (offset + 5))
    (hund : tvb_get_ntoh24 buf (offset + 5) < tvb_get_ntohl buf (offset + 8) * 8) :
    dissect_spdy_loop env buf (fuel + 1) memo acc offset =
      ⟨offset, none, true, memo,
        acc ++ [.settingsTooSmall (tvb_get_ntohl buf (offset + 8))]⟩ := by
  have hexp : get_spdy_message_len buf offset = tvb_get_ntoh24 buf (offset + 5) + 8 := rfl
  have hframe := frame_settings_undersized env memo buf offset h8 hcb hv htype
    (by rw [hexp] at hfit; omega) hfl4 hund
  rw [dissect_spdy_loop_succ, if_neg (by omega), if_neg (by omega),
      if_neg (by omega), if_pos (by rw [hframe]; simp)]
  rw [hframe]

/-- Witness for claim C3: the SETTINGS frame of declared length 12 with
num_entries 5, followed by a NOOP frame, stops the driver at offset 0
with the malformed expert info. -/
theorem claim_c3_witness :
    dissect_spdy_loop envTest
      ([128, 3, 0, 4, 0, 0, 0, 12] ++ [0, 0, 0, 5, 0, 0, 0, 0, 0, 0, 0, 0] ++
        [128, 3, 0, 5, 0, 0, 0, 0]) 3 [] [] 0 =
      ⟨0, none, true, [], [.settingsTooSmall 5]⟩ := by
  have h := claim_c3_settings_halt envTest
    ([128, 3, 0, 4, 0, 0, 0, 12] ++ [0, 0, 0, 5, 0, 0, 0, 0, 0, 0, 0, 0] ++
      [128, 3, 0, 5, 0, 0, 0, 0]) 2 0 [] []
    (by decide) (by decide) (by decide) (by decide) (by decide) (by decide) (by decide)
  simpa using h

/-- Counterexample to claim C3 as stated: on the buffer holding the
undersized SETTINGS frame (declared length 12, num_entries 5) followed
by a NOOP frame, the engine consumes 0 bytes rather than advancing the
20 bytes past the declared length, and the following frame is never
dissected. -/
theorem claim_c3_counterexample :
    (dissect_spdy envTest
      ([128, 3, 0, 4, 0, 0, 0, 12] ++ [0, 0, 0, 5, 0, 0, 0, 0, 0, 0, 0, 0] ++
        [128, 3, 0, 5, 0, 0, 0, 0])).consumed = 0 ∧
    (dissect_spdy envTest
      ([128, 3, 0, 4, 0, 0, 0, 12] ++ [0, 0, 0, 5, 0, 0, 0, 0, 0, 0, 0, 0] ++
        [128, 3, 0, 5, 0, 0, 0, 0])).frame_error = true ∧
    (0 : Nat) ≠ 12 + 8 := by decide

end Spdy

namespace Spdy

/-- Claim C2 (code-bug exhibit): a SETTINGS frame with declared payload
length 8 and num_entries 1 is below the bound 4 + 8 * num_entries the
claim states, yet the code reports no malformed error: it dissects the
entry, its loop running to payload offset 12, four bytes past the
declared payload end, and the frame dissector emits no expert info and
returns 16. -/
theorem claim_c2_settings_bound :
    dissect_spdy_settings_payload [0, 0, 0, 1, 0, 0, 0, 0] 0 8 =
      ⟨8, [], 1, 12⟩ ∧
    (8 : Nat) < 4 + 8 * 1 ∧
    (dissect_spdy_frame envTest []
      ([128, 3, 0, 4, 0, 0, 0, 8] ++ [0, 0, 0, 1, 0, 0, 0, 0]) 0).experts = [] ∧
    (dissect_spdy_frame envTest []
      ([128, 3, 0, 4, 0, 0, 0, 8] ++ [0, 0, 0, 1, 0, 0, 0, 0]) 0).ret = 16 := by
  decide

/-- Claim C4 (amended): the primary handle is chosen in priority order,
the destination-port handle first, else the media-type handle when a
content type was recorded; when no handle exists exactly one generic
dissector runs, media when a content type was recorded and data
otherwise; but when a handle exists it is called and then one generic
dissector is additionally called: media when the handle declined and a
content type was recorded, data otherwise (in particular also after the
handle dissected the body). -/
theorem claim_c4_dispatch (ph ml : Option Nat) (hct : Bool)
    (accepts : Nat → Bool) :
    (∀ h, ph = some h →
      spdy_dispatch_body ph ml hct accepts =
        [DispatchTarget.sub h,
         if accepts h = false ∧ hct = true then DispatchTarget.media
         else DispatchTarget.data]) ∧
    (∀ m, ph = none → hct = true → ml = some m →
      spdy_dispatch_body ph ml hct accepts =
        [DispatchTarget.sub m,
         if accepts m = false then DispatchTarget.media
         else DispatchTarget.data]) ∧
    (ph = none → hct = true → ml = none →
      spdy_dispatch_body ph ml hct accepts = [DispatchTarget.media]) ∧
    (ph = none → hct = false →
      spdy_dispatch_body ph ml hct accepts = [DispatchTarget.data]) := by
  refine ⟨?_, ?_, ?_, ?_⟩
  · rintro h rfl
    cases hacc : accepts h <;> cases hct <;> simp [spdy_dispatch_body, hacc]
  · rintro m rfl rfl rfl
    cases hacc : accepts m <;> simp [spdy_dispatch_body, hacc]
  · rintro rfl rfl rfl
    simp [spdy_dispatch_body]
  · rintro rfl rfl
    simp [spdy_dispatch_body]

/-- Witness for claim C4: a port handle that dissects the body is
followed by the generic data dissector. -/
theorem claim_c4_witness :
    spdy_dispatch_body (some 7) none false (fun _ => true) =
      [DispatchTarget.sub 7, DispatchTarget.data] := by
  have h := (claim_c4_dispatch (some 7) none false (fun _ => true)).1 7 rfl
  simpa using h

/-- Counterexample to claim C4 as stated: with a port handle registered
and dissecting the body, two dissectors are dispatched, not exactly
one. -/
theorem claim_c4_counterexample :
    (spdy_dispatch_body (some 7) none false (fun _ => true)).length = 2 ∧
    spdy_dispatch_body (some 7) none false (fun _ => true) =
      [DispatchTarget.sub 7, DispatchTarget.data] := by decide

/-- Claim C10: discarding the data frames of a stream record nulls every
chunk data pointer but keeps the chunk list, the per-chunk lengths and
frame numbers, num_data_frames and assembled_data unchanged, and is a
no-op on an empty chunk list. -/
theorem claim_c10_discard (si : spdy_stream_info_t) :
    ((spdy_discard_data_frames si).data_frames.map (fun df => df.length) =
      si.data_frames.map (fun df => df.length)) ∧
    ((spdy_discard_data_frames si).data_frames.map (fun df => df.framenum) =
      si.data_frames.map (fun df => df.framenum)) ∧
    (spdy_discard_data_frames si).data_frames.length = si.data_frames.length ∧
    (∀ df ∈ (spdy_discard_data_frames si).data_frames, df.data = none) ∧
    (spdy_discard_data_frames si).num_data_frames = si.num_data_frames ∧
    (spdy_discard_data_frames si).assembled_data = si.assembled_data ∧
    (spdy_discard_data_frames si).content_type = si.content_type ∧
    (si.data_frames = [] → spdy_discard_data_frames si = si) := by
  by_cases h : si.data_frames = []
  · simp [spdy_discard_data_frames, h]
  · refine ⟨?_, ?_, ?_, ?_, ?_, ?_, ?_, ?_⟩
    · simp [spdy_discard_data_frames, h, List.map_map]
    · simp [spdy_discard_data_frames, h, List.map_map]
    · simp [spdy_discard_data_frames, h]
    · intro df hdf
      simp only [spdy_discard_data_frames, if_neg h, List.mem_map] at hdf
      obtain ⟨a, _, ha⟩ := hdf
      rw [← ha]
    · simp [spdy_discard_data_frames, h]
    · simp [spdy_discard_data_frames, h]
    · simp [spdy_discard_data_frames, h]
    · intro hc
      exact absurd hc h

/-- Witness for claim C10: the empty chunk list case is a no-op. -/
theorem claim_c10_witness :
    spdy_discard_data_frames ⟨none, none, none, [], some [1], 3⟩ =
      ⟨none, none, none, [], some [1], 3⟩ :=
  (claim_c10_discard ⟨none, none, none, [], some [1], 3⟩).2.2.2.2.2.2.2 rfl

end Spdy

namespace Spdy

/-- The length sum of a chunk list is nonzero when some member chunk has
nonzero length. -/
theorem chunk_len_sum_ne_zero (l : List spdy_data_frame_t)
    (df0 : spdy_data_frame_t) (h : df0 ∈ l) (hp : 0 < df0.length) :
    ((l.map (fun df => df.length)).sum ≠ 0) := by
  intro h0
  have hz := (List.sum_eq_zero_iff.mp h0) df0.length (List.mem_map_of_mem _ h)
  omega

/-- Claim C8: on the first visit of a FIN DATA frame with body assembly
enabled, the dispatched body is the concatenation, in visit order, of
the data chunks recorded for the stream (the payload of the FIN frame
included, when nonempty and earlier chunks exist); when the stream has
no accumulated chunks, the payload of the current frame itself is the
body. -/
theorem claim_c8_assembled_body (si : spdy_stream_info_t) (framenum : Nat)
    (payload : List Nat)
    (hassembled : si.assembled_data = none)
    (hchunks : ∀ df ∈ si.data_frames,
      ∃ d, df.data = some d ∧ df.length = d.length ∧ d ≠ [])
    (hnum : si.num_data_frames = si.data_frames.length)
    (hsome : payload ≠ [] ∨ si.data_frames ≠ []) :
    (si.data_frames = [] →
      (dissect_spdy_data_payload_body (some si) framenum payload true false
        true).body = some payload) ∧
    (si.data_frames ≠ [] →
      (dissect_spdy_data_payload_body (some si) framenum payload true false
        true).body =
        some (chunk_bytes (si.data_frames ++
          (if payload = [] then []
           else [⟨some payload, payload.length, framenum⟩])))) ∧
    (∀ si2, (dissect_spdy_data_payload_body (some si) framenum payload true
        false true).stream = some si2 →
      si2.data_frames = si.data_frames ++
        (if payload = [] ∨ si.data_frames = [] then []
         else [⟨some payload, payload.length, framenum⟩])) := by
  by_cases hch : si.data_frames = []
  · -- no accumulated chunks: the frame alone is the message
    have hpay : payload ≠ [] := by
      rcases hsome with h | h
      · exact h
      · exact absurd hch h
    have hp0 : ¬ (payload.length = 0) := by
      simpa [List.length_eq_zero] using hpay
    have hres : dissect_spdy_data_payload_body (some si) framenum payload
        true false true = ⟨some si, some payload, false⟩ := by
      simp [dissect_spdy_data_payload_body, spdy_assemble_data_frames,
        hch, hassembled, hnum, hp0]
    rw [hres]
    refine ⟨fun _ => rfl, fun hc => absurd hch hc, ?_⟩
    intro si2 hsi2
    simp only [Option.some.injEq] at hsi2
    subst hsi2
    simp [hch]
  · by_cases hpay : payload = []
    · -- FIN frame with empty payload: assemble the accumulated chunks
      have hnum1 : si.num_data_frames ≠ 0 := by
        rw [hnum]
        simpa [List.length_eq_zero] using hch
      obtain ⟨df0, hdf0⟩ := List.exists_mem_of_ne_nil _ hch
      obtain ⟨d0, hd0, hl0, hne0⟩ := hchunks df0 hdf0
      have hpos : 0 < df0.length := by
        rw [hl0]
        exact List.length_pos.mpr hne0
      have hsum := chunk_len_sum_ne_zero si.data_frames df0 hdf0 hpos
      have hres : dissect_spdy_data_payload_body (some si) framenum payload
          true false true =
          ⟨some { si with assembled_data := some (chunk_bytes si.data_frames) },
            some (chunk_bytes si.data_frames), false⟩ := by
        simp [dissect_spdy_data_payload_body, spdy_assemble_data_frames,
          hch, hassembled, hnum1, hpay, hsum]
      rw [hres]
      refine ⟨fun hc => absurd hc hch, fun _ => by simp [hpay], ?_⟩
      intro si2 hsi2
      simp only [Option.some.injEq] at hsi2
      subst hsi2
      simp [hpay]
    · -- FIN frame with payload after earlier chunks: chunk it, assemble all
      have hp0 : ¬ (payload.length = 0) := by
        simpa [List.length_eq_zero] using hpay
      have hnum1 : si.num_data_frames ≠ 0 := by
        rw [hnum]
        simpa [List.length_eq_zero] using hch
      have hsum : ((((si.data_frames ++
          [(⟨some payload, payload.length, framenum⟩ : spdy_data_frame_t)]).map
            (fun df => df.length)).sum ≠ 0)) := by
        have hmem : (⟨some payload, payload.length, framenum⟩ : spdy_data_frame_t) ∈
            si.data_frames ++
              [(⟨some payload, payload.length, framenum⟩ : spdy_data_frame_t)] := by
          simp
        exact chunk_len_sum_ne_zero _ _ hmem
          (show 0 < payload.length from List.length_pos.mpr hpay)
      have hres : dissect_spdy_data_payload_body (some si) framenum payload
          true false true =
          ⟨some { si with
              data_frames := si.data_frames ++
                [⟨some payload, payload.length, framenum⟩],
              assembled_data := some (chunk_bytes (si.data_frames ++
                [⟨some payload, payload.length, framenum⟩])),
              num_data_frames := si.num_data_frames + 1 },
            some (chunk_bytes (si.data_frames ++
              [⟨some payload, payload.length, framenum⟩])), false⟩ := by
        simp [dissect_spdy_data_payload_body, spdy_add_data_chunk,
          spdy_assemble_data_frames, hch, hassembled, hnum1, hp0, hsum]
      rw [hres]
      refine ⟨fun hc => absurd hc hch, fun _ => by simp [hpay], ?_⟩
      intro si2 hsi2
      simp only [Option.some.injEq] at hsi2
      subst hsi2
      simp [hpay, hch]

/-- Witness for claim C8: one accumulated chunk 1 2 and a FIN payload 3
assemble to 1 2 3; a FIN payload 5 6 on a chunkless stream is itself the
body. -/
theorem claim_c8_witness :
    (dissect_spdy_data_payload_body
      (some ⟨none, none, none, [⟨some [1, 2], 2, 1⟩], none, 1⟩) 2 [3]
      true false true).body = some [1, 2, 3] ∧
    (dissect_spdy_data_payload_body
      (some ⟨none, none, none, [], none, 0⟩) 1 [5, 6]
      true false true).body = some [5, 6] := by
  constructor
  · have h := (claim_c8_assembled_body
      ⟨none, none, none, [⟨some [1, 2], 2, 1⟩], none, 1⟩ 2 [3] rfl
      (by decide) rfl (Or.inl (by decide))).2.1 (by decide)
    simpa [chunk_bytes] using h
  · have h := (claim_c8_assembled_body
      ⟨none, none, none, [], none, 0⟩ 1 [5, 6] rfl
      (by decide) rfl (Or.inl (by decide))).1 rfl
    simpa using h

end Spdy

namespace Spdy

theorem spdy_find_append_some (M L : HeaderMemo) (sid ft : Nat) (b : List Nat)
    (h : spdy_find_saved_header_block M sid ft = some b) :
    spdy_find_saved_header_block (M ++ L) sid ft = some b := by
  induction M with
  | nil => simp [spdy_find_saved_header_block] at h
  | cons e rest ih =>
      obtain ⟨s, t, blk⟩ := e
      by_cases hc : s = sid ∧ t = ft
      · simp only [spdy_find_saved_header_block, if_pos hc] at h
        simpa [spdy_find_saved_header_block, hc] using h
      · simp only [spdy_find_saved_header_block, if_neg hc] at h
        simpa [spdy_find_saved_header_block, hc] using ih h

theorem spdy_find_append_none (M L : HeaderMemo) (sid ft : Nat)
    (h : spdy_find_saved_header_block M sid ft = none) :
    spdy_find_saved_header_block (M ++ L) sid ft =
      spdy_find_saved_header_block L sid ft := by
  induction M with
  | nil => simp [spdy_find_saved_header_block]
  | cons e rest ih =>
      obtain ⟨s, t, blk⟩ := e
      by_cases hc : s = sid ∧ t = ft
      · simp [spdy_find_saved_header_block, if_pos hc] at h
      · simp only [spdy_find_saved_header_block, if_neg hc] at h
        simpa [spdy_find_saved_header_block, hc] using ih h

/-- The memo only grows during a packet visit. -/
theorem spdy_visit_memo_extends {Z : Type}
    (inflate : Z → Bool → List Nat → Option (List Nat) × Z) :
    ∀ (fs : List (Nat × Nat × List Nat)) (M : HeaderMemo) (z : Z),
      ∃ d, (spdy_visit_packet inflate M z fs).2.1 = M ++ d := by
  intro fs
  induction fs with
  | nil => intro M z; exact ⟨[], by simp [spdy_visit_packet]⟩
  | cons f rest ih =>
      intro M z
      obtain ⟨sid, ft, comp⟩ := f
      cases hf : spdy_find_saved_header_block M sid ft with
      | some blk =>
          obtain ⟨d, hd⟩ := ih M z
          exact ⟨d, by simp [spdy_visit_packet, hf, hd]⟩
      | none =>
          rcases hinf : inflate z (spdy_decomp_is_rqst sid ft) comp with ⟨o, z1⟩
          cases o with
          | none => exact ⟨[], by simp [spdy_visit_packet, hf, hinf]⟩
          | some pt =>
              obtain ⟨d, hd⟩ := ih (spdy_save_header_block M sid ft pt) z1
              refine ⟨(sid, ft, pt) :: d, ?_⟩
              simp only [spdy_visit_packet, hf, hinf]
              rw [hd, spdy_save_header_block]
              simp

/-- A visit whose every key is already memoized reuses the stored
plaintexts, leaves the memo and the inflater untouched, and never
invokes the inflater. -/
theorem spdy_visit_stable {Z : Type}
    (inflate : Z → Bool → List Nat → Option (List Nat) × Z) :
    ∀ (fs : List (Nat × Nat × List Nat)) (M : HeaderMemo) (z : Z),
      (∀ f ∈ fs, (spdy_find_saved_header_block M f.1 f.2.1).isSome = true) →
      spdy_visit_packet inflate M z fs =
        (fs.map (fun f => spdy_find_saved_header_block M f.1 f.2.1), M, z, false) := by
  intro fs
  induction fs with
  | nil => intro M z _; simp [spdy_visit_packet]
  | cons f rest ih =>
      intro M z hall
      obtain ⟨sid, ft, comp⟩ := f
      have hh := hall (sid, ft, comp) (by simp)
      rw [Option.isSome_iff_exists] at hh
      obtain ⟨blk, hf⟩ := hh
      have hrest := ih M z (fun g hg => hall g (by simp [hg]))
      simp [spdy_visit_packet, hf, hrest]

/-- After a fully successful visit, every output equals the stored
plaintext under its key in the final memo, position by position. -/
theorem spdy_visit_coverage {Z : Type}
    (inflate : Z → Bool → List Nat → Option (List Nat) × Z) :
    ∀ (fs : List (Nat × Nat × List Nat)) (M : HeaderMemo) (z : Z),
      (∀ o ∈ (spdy_visit_packet inflate M z fs).1, o.isSome = true) →
      (spdy_visit_packet inflate M z fs).1 =
        fs.map (fun f =>
          spdy_find_saved_header_block (spdy_visit_packet inflate M z fs).2.1
            f.1 f.2.1) := by
  intro fs
  induction fs with
  | nil => intro M z _; simp [spdy_visit_packet]
  | cons f rest ih =>
      intro M z hall
      obtain ⟨sid, ft, comp⟩ := f
      cases hf : spdy_find_saved_header_block M sid ft with
      | some blk =>
          have hall2 : ∀ o ∈ (spdy_visit_packet inflate M z rest).1, o.isSome = true := by
            intro o ho
            exact hall o (by simp [spdy_visit_packet, hf, ho])
          have hrec := ih M z hall2
          obtain ⟨d, hd⟩ := spdy_visit_memo_extends inflate rest M z
          simp only [spdy_visit_packet, hf, List.map_cons, List.cons.injEq]
          refine ⟨?_, hrec⟩
          rw [hd]
          exact (spdy_find_append_some M d sid ft blk hf).symm
      | none =>
          rcases hinf : inflate z (spdy_decomp_is_rqst sid ft) comp with ⟨o, z1⟩
          cases o with
          | none =>
              exfalso
              have := hall none (by simp [spdy_visit_packet, hf, hinf])
              simp at this
          | some pt =>
              have hall2 : ∀ o ∈ (spdy_visit_packet inflate
                  (spdy_save_header_block M sid ft pt) z1 rest).1, o.isSome = true := by
                intro o ho
                exact hall o (by simp [spdy_visit_packet, hf, hinf, ho])
              have hrec := ih (spdy_save_header_block M sid ft pt) z1 hall2
              obtain ⟨d, hd⟩ :=
                spdy_visit_memo_extends inflate rest (spdy_save_header_block M sid ft pt) z1
              have hfind1 : spdy_find_saved_header_block
                  (spdy_save_header_block M sid ft pt) sid ft = some pt := by
                rw [spdy_save_header_block, spdy_find_append_none M _ sid ft hf]
                simp [spdy_find_saved_header_block]
              simp only [spdy_visit_packet, hf, hinf, List.map_cons,
                List.cons.injEq]
              refine ⟨?_, hrec⟩
              rw [hd]
              exact (spdy_find_append_some _ d sid ft pt hfind1).symm

end Spdy

namespace Spdy

/-- Claim C7: the header-block step reuses a memo hit without touching
the inflater; on a miss it decompresses and stores the plaintext under
(stream id, frame type); consequently a packet whose first visit
decompressed every header block is re-dissected with byte-identical
plaintext outputs, an unchanged memo, and no inflater invocation, from
any inflater state. -/
theorem claim_c7_memo (Z : Type)
    (inflate : Z → Bool → List Nat → Option (List Nat) × Z)
    (z z2 : Z) (fs : List (Nat × Nat × List Nat)) :
    (∀ (decomp : List Nat → Option (List Nat)) (memo : HeaderMemo)
        (sid ft : Nat) (compressed blk : List Nat),
      spdy_find_saved_header_block memo sid ft = some blk →
      spdy_header_block_step decomp memo sid ft compressed =
        (some blk, memo, false)) ∧
    (∀ (decomp : List Nat → Option (List Nat)) (memo : HeaderMemo)
        (sid ft : Nat) (compressed pt : List Nat),
      spdy_find_saved_header_block memo sid ft = none →
      decomp compressed = some pt →
      spdy_header_block_step decomp memo sid ft compressed =
        (some pt, spdy_save_header_block memo sid ft pt, true)) ∧
    ((∀ o ∈ (spdy_visit_packet inflate [] z fs).1, o.isSome = true) →
      spdy_visit_packet inflate (spdy_visit_packet inflate [] z fs).2.1 z2 fs =
        ((spdy_visit_packet inflate [] z fs).1,
         (spdy_visit_packet inflate [] z fs).2.1, z2, false)) := by
  refine ⟨?_, ?_, ?_⟩
  · intro decomp memo sid ft compressed blk hf
    simp [spdy_header_block_step, hf]
  · intro decomp memo sid ft compressed pt hf hd
    simp [spdy_header_block_step, hf, hd]
  · intro hall
    have hcov := spdy_visit_coverage inflate fs [] z hall
    have hkeys : ∀ f ∈ fs,
        (spdy_find_saved_header_block (spdy_visit_packet inflate [] z fs).2.1
          f.1 f.2.1).isSome = true := by
      intro f hf
      have hmem : spdy_find_saved_header_block
          (spdy_visit_packet inflate [] z fs).2.1 f.1 f.2.1 ∈
            (spdy_visit_packet inflate [] z fs).1 := by
        rw [hcov]
        exact List.mem_map_of_mem _ hf
      exact hall _ hmem
    have hst := spdy_visit_stable inflate fs
      (spdy_visit_packet inflate [] z fs).2.1 z2 hkeys
    rw [hst, ← hcov]

/-- Witness for claim C7: a two-frame packet decompressed with a
stateful inflater; the second visit returns the same plaintexts from a
different inflater state without invoking it. -/
theorem claim_c7_witness :
    spdy_visit_packet (Z := Nat) (fun z _ c => (some (c ++ [z]), z + 1))
      [(1, 1, [5, 0]), (3, 2, [6, 1])] 77 [(1, 1, [5]), (3, 2, [6])] =
      ([some [5, 0], some [6, 1]],
       [(1, 1, [5, 0]), (3, 2, [6, 1])], 77, false) := by
  have h := (claim_c7_memo Nat (fun z _ c => (some (c ++ [z]), z + 1))
    0 77 [(1, 1, [5]), (3, 2, [6])]).2.2 (by decide)
  simpa using h

end Spdy

namespace Spdy

/-- A header-bearing frame (SYN_REPLY here) whose decompression fails:
the frame dissector emits the inflation-failed expert info, marks the
frame, and returns -1, the memo unchanged. -/
theorem frame_inflation_failed (env : SpdyEnv) (memo : HeaderMemo)
    (buf : List Nat) (offset : Nat)
    (hdec : env.decompress_headers = true)
    (h8 : 8 ≤ buf.length - offset)
    (hcb : 128 ≤ byteAt buf offset)
    (hv : MIN_SPDY_VERSION ≤ tvb_get_ntohs buf offset % 32768)
    (htype : tvb_get_ntohs buf (offset + 2) = SPDY_SYN_REPLY)
    (hlen : tvb_get_ntoh24 buf (offset + 5) ≤ buf.length - (offset + 8))
    (hfind : spdy_find_saved_header_block memo
      (tvb_get_ntohl buf (offset + 8) % 2147483648) SPDY_SYN_REPLY = none)
    (hdecomp : ∀ b c, env.decomp b c = none) :
    dissect_spdy_frame env memo buf offset =
      ⟨-1, [.inflationFailed], false, true, true, true, memo⟩ := by
  have hlt : byteAt buf offset < 256 := by
    unfold byteAt; omega
  have hb : ¬ (byteAt buf offset / 128 = 0) := by omega
  simp only [dissect_spdy_frame]
  rw [htype, hdec]
  rw [if_neg (by omega : ¬ (buf.length - offset < 8)),
      if_neg hb,
      if_neg (by decide : ¬ (SPDY_INVALID ≤ SPDY_SYN_REPLY)),
      if_neg (by omega : ¬ (buf.length - (offset + 8) < tvb_get_ntoh24 buf (offset + 5))),
      if_neg (by omega : ¬ (tvb_get_ntohs buf offset % 32768 < MIN_SPDY_VERSION)),
      if_neg (by decide : ¬ (SPDY_SYN_REPLY = SPDY_RST_STREAM)),
      if_neg (by decide : ¬ (SPDY_SYN_REPLY = SPDY_SETTINGS)),
      if_pos (by decide : SPDY_SYN_REPLY = SPDY_SYN_STREAM ∨
        SPDY_SYN_REPLY = SPDY_SYN_REPLY ∨ SPDY_SYN_REPLY = SPDY_HEADERS)]
  simp only [spdy_header_block_step, hfind, hdecomp]
  simp

end Spdy

namespace Spdy

/-- Claim C9: during header-block decompression, a dictionary-needed
signal leads to installing the SPDY dictionary and retrying exactly
when the expected adler32 of the inflater equals the adler32 of the
dictionary; every path whose final inflate status is not OK returns a
null result (and an OK path returns the inflated bytes); and a null
result makes the frame dissector report the decompression failure and
abort the header processing of that frame with -1. -/
theorem claim_c9_decompress (Z : Type) (api : ZApi Z) (z : Z)
    (input : List Nat) :
    (((api.inflate z input).code = ZCode.needDict ∧
        (api.inflate z input).adler ≠ spdy_conv_dictionary_id) →
      spdy_decompress_header_block api z spdy_conv_dictionary_id input =
        (none, (api.inflate z input).state, false)) ∧
    ((spdy_decompress_header_block api z spdy_conv_dictionary_id input).2.2 = true ↔
      ((api.inflate z input).code = ZCode.needDict ∧
       (api.inflate z input).adler = spdy_conv_dictionary_id)) ∧
    ((api.inflate z input).code = ZCode.err →
      (spdy_decompress_header_block api z spdy_conv_dictionary_id input).1 = none) ∧
    ((api.inflate z input).code = ZCode.ok →
      (spdy_decompress_header_block api z spdy_conv_dictionary_id input).1 =
        some (api.inflate z input).output) ∧
    (∀ z1, (api.inflate z input).code = ZCode.needDict →
      (api.inflate z input).adler = spdy_conv_dictionary_id →
      api.setDictionary (api.inflate z input).state spdy_dictionary = (true, z1) →
      ((spdy_decompress_header_block api z spdy_conv_dictionary_id input).1 = none ↔
        ¬ (api.inflateCont z1).code = ZCode.ok) ∧
      ((api.inflateCont z1).code = ZCode.ok →
        (spdy_decompress_header_block api z spdy_conv_dictionary_id input).1 =
          some (api.inflateCont z1).output)) ∧
    (∀ z1, (api.inflate z input).code = ZCode.needDict →
      (api.inflate z input).adler = spdy_conv_dictionary_id →
      api.setDictionary (api.inflate z input).state spdy_dictionary = (false, z1) →
      (spdy_decompress_header_block api z spdy_conv_dictionary_id input).1 = none) ∧
    (∀ (env : SpdyEnv) (memo : HeaderMemo) (buf : List Nat) (offset : Nat),
      env.decompress_headers = true →
      8 ≤ buf.length - offset →
      128 ≤ byteAt buf offset →
      MIN_SPDY_VERSION ≤ tvb_get_ntohs buf offset % 32768 →
      tvb_get_ntohs buf (offset + 2) = SPDY_SYN_REPLY →
      tvb_get_ntoh24 buf (offset + 5) ≤ buf.length - (offset + 8) →
      spdy_find_saved_header_block memo
        (tvb_get_ntohl buf (offset + 8) % 2147483648) SPDY_SYN_REPLY = none →
      (∀ b c, env.decomp b c = none) →
      dissect_spdy_frame env memo buf offset =
        ⟨-1, [.inflationFailed], false, true, true, true, memo⟩) := by
  refine ⟨?_, ?_, ?_, ?_, ?_, ?_, ?_⟩
  · rintro ⟨hc, ha⟩
    simp [spdy_decompress_header_block, hc, ha]
  · cases hc : (api.inflate z input).code <;>
      simp only [spdy_decompress_header_block, hc]
    · simp
    · by_cases ha : (api.inflate z input).adler = spdy_conv_dictionary_id
      · rcases hsd : api.setDictionary (api.inflate z input).state spdy_dictionary
          with ⟨ok, z1⟩
        cases ok <;> cases hcc : (api.inflateCont z1).code <;>
          simp [ha, hsd, hcc]
      · simp [ha]
    · simp
  · intro hc
    simp [spdy_decompress_header_block, hc]
  · intro hc
    simp [spdy_decompress_header_block, hc]
  · intro z1 hc ha hsd
    constructor
    · cases hcc : (api.inflateCont z1).code <;>
        simp [spdy_decompress_header_block, hc, ha, hsd, hcc]
    · intro hcc
      simp [spdy_decompress_header_block, hc, ha, hsd, hcc]
  · intro z1 hc ha hsd
    simp [spdy_decompress_header_block, hc, ha, hsd]
  · intro env memo buf offset hdec h8 hcb hv htype hlen hfind hdecomp
    exact frame_inflation_failed env memo buf offset hdec h8 hcb hv htype
      hlen hfind hdecomp

/-- Witness for claim C9 at a concrete inflater: a dictionary-needed
signal with the matching adler installs the dictionary and the retry
succeeds; the frame-level abort fires on a concrete SYN_REPLY frame
with a failing inflater. -/
theorem claim_c9_witness :
    (spdy_decompress_header_block
      (⟨fun z _ => ⟨ZCode.needDict, spdy_conv_dictionary_id, [], z + 1⟩,
        fun z => ⟨ZCode.ok, 0, [7, 8], z + 1⟩,
        fun z _ => (true, z + 10)⟩ : ZApi Nat) 0
      spdy_conv_dictionary_id [1, 2]).2.2 = true ∧
    dissect_spdy_frame envTest [] ([128, 3, 0, 2, 0, 0, 0, 8] ++ [0, 0, 0, 1, 9, 9, 9, 9]) 0 =
      ⟨-1, [.inflationFailed], false, true, true, true, []⟩ := by
  constructor
  · exact (claim_c9_decompress Nat
      ⟨fun z _ => ⟨ZCode.needDict, spdy_conv_dictionary_id, [], z + 1⟩,
        fun z => ⟨ZCode.ok, 0, [7, 8], z + 1⟩,
        fun z _ => (true, z + 10)⟩ 0 [1, 2]).2.1.mpr ⟨rfl, rfl⟩
  · exact (claim_c9_decompress Nat
      (⟨fun z _ => ⟨ZCode.needDict, spdy_conv_dictionary_id, [], z + 1⟩,
        fun z => ⟨ZCode.ok, 0, [7, 8], z + 1⟩,
        fun z _ => (true, z + 10)⟩ : ZApi Nat) 0 [1, 2]).2.2.2.2.2.2
      envTest [] ([128, 3, 0, 2, 0, 0, 0, 8] ++ [0, 0, 0, 1, 9, 9, 9, 9]) 0
      rfl (by decide) (by decide) (by decide) (by decide) (by decide)
      (by decide) (fun b c => rfl)

end Spdy
